import Mathlib

/-!
Verification of the Heartify login screen (`src/app/login.tsx`).

The screen has two pieces of logic:

* `checkExistingAuth` — the session bootstrapper run on mount: reads the
  three session keys from AsyncStorage, optionally verifies the token
  against `GET /auth/verify-token`, and either redirects to the
  authenticated area (`router.replace("/(tabs)")`) or falls through to
  the login form, deleting the keys when the server rejects the token.

* `handleLogin` — the login submitter: validates the two inputs, posts
  them to `POST /auth/login`, persists the returned session triple on
  success, and surfaces errors otherwise.

The embedding below is a direct translation of that TypeScript.  The
asynchronous environment (fetch outcomes, AsyncStorage success/failure)
is passed in as explicit parameters; the observable behaviour (alerts,
navigation, network calls) is returned as a list of `Effect`s, and the
final component state (input fields, loading flags, storage) is returned
in a result structure.
-/

namespace Heartify

/-- A JSON value, as produced by `response.json()` and consumed by
`JSON.stringify`.  Numbers are modelled as integers; no claim exercises
non-integral numbers. -/
inductive Json where
  | null : Json
  | bool (b : Bool) : Json
  | num (n : Int) : Json
  | str (s : String) : Json
  | arr (xs : List Json) : Json
  | obj (fields : List (String × Json)) : Json

/-- Lower-case hex digit, used for JSON control-character escapes. -/
def hexDigit (n : Nat) : String :=
  if n < 10 then String.singleton (Char.ofNat (48 + n))
  else String.singleton (Char.ofNat (87 + n))

/-- Escaping of a single character performed by `JSON.stringify` inside
string literals. -/
def escapeJsonChar (c : Char) : String :=
  if c = '"' then "\\\""
  else if c = '\\' then "\\\\"
  else if c = '\n' then "\\n"
  else if c = '\r' then "\\r"
  else if c = '\t' then "\\t"
  else if c.toNat = 8 then "\\b"
  else if c.toNat = 12 then "\\f"
  else if c.toNat < 32 then "\\u00" ++ hexDigit (c.toNat / 16) ++ hexDigit (c.toNat % 16)
  else String.singleton c

/-- String-literal escaping performed by `JSON.stringify`. -/
def escapeJson (s : String) : String :=
  String.join (s.toList.map escapeJsonChar)

mutual

/-- `JSON.stringify` on a JSON value (the code applies it to the opaque
`user` object before storing it under `user_data`). -/
def Json.stringify : Json → String
  | .null => "null"
  | .bool b => cond b "true" "false"
  | .num n => toString n
  | .str s => "\"" ++ escapeJson s ++ "\""
  | .arr xs => "[" ++ Json.stringifyArr xs ++ "]"
  | .obj fs => "\x7b" ++ Json.stringifyObj fs ++ "\x7d"

/-- Comma-separated serialization of array elements. -/
def Json.stringifyArr : List Json → String
  | [] => ""
  | [x] => Json.stringify x
  | x :: xs => Json.stringify x ++ "," ++ Json.stringifyArr xs

/-- Comma-separated serialization of object fields. -/
def Json.stringifyObj : List (String × Json) → String
  | [] => ""
  | [(k, v)] => "\"" ++ escapeJson k ++ "\":" ++ Json.stringify v
  | (k, v) :: fs =>
      "\"" ++ escapeJson k ++ "\":" ++ Json.stringify v ++ "," ++ Json.stringifyObj fs

end

mutual

/-- JavaScript string coercion of a value, as performed inside a template
literal (used for `${user.username}` in the welcome message). -/
def jsCoerce : Json → String
  | .null => "null"
  | .bool b => cond b "true" "false"
  | .num n => toString n
  | .str s => s
  | .obj _ => "[object Object]"
  | .arr xs => jsCoerceList xs

/-- Array-to-string coercion: elements joined by commas, with `null`
elements rendered empty (JavaScript `Array.prototype.toString`). -/
def jsCoerceList : List Json → String
  | [] => ""
  | [.null] => ""
  | [x] => jsCoerce x
  | .null :: xs => "," ++ jsCoerceList xs
  | x :: xs => jsCoerce x ++ "," ++ jsCoerceList xs

end

/-- Template-literal rendering of a possibly-absent property
(`undefined` prints as the string "undefined"). -/
def jsDisplayOpt : Option Json → String
  | none => "undefined"
  | some j => jsCoerce j

/-- Property read `j.k` on a JSON value: defined on objects, `undefined`
(i.e. `none`) otherwise. -/
def Json.lookup : Json → String → Option Json
  | .obj fs, k => List.lookup k fs
  | _, _ => none

/-- The characters JavaScript `String.prototype.trim` removes: ASCII
whitespace, NBSP, BOM, the Unicode space separators and the line
separators. -/
def jsWhitespace (c : Char) : Bool :=
  c = ' ' || c = '\t' || c = '\n' || c = '\r' ||
  c.toNat = 11 || c.toNat = 12 || c.toNat = 160 || c.toNat = 0x1680 ||
  (0x2000 ≤ c.toNat && c.toNat ≤ 0x200a) ||
  c.toNat = 0x2028 || c.toNat = 0x2029 || c.toNat = 0x202f ||
  c.toNat = 0x205f || c.toNat = 0x3000 || c.toNat = 0xfeff

/-- JavaScript `String.prototype.trim`: strip `jsWhitespace` characters
from both ends (applied to the username before it is sent). -/
def jsTrim (s : String) : String :=
  ⟨((s.toList.dropWhile jsWhitespace).reverse.dropWhile jsWhitespace).reverse⟩

/-- JavaScript `a || b` where `a` is a possibly-absent string: a present
but empty string is falsy and selects the fallback (used for
`data.error || 'Login failed. Please try again.'`). -/
def jsOr (a : Option String) (b : String) : String :=
  match a with
  | some s => if s.isEmpty then b else s
  | none => b

/-- The persistent AsyncStorage state restricted to the three session
keys `access_token`, `token_type`, `user_data`; `none` means the key is
absent (AsyncStorage returns `null`). -/
structure Storage where
  access_token : Option String
  token_type : Option String
  user_data : Option String
deriving DecidableEq, Repr

/-- Storage with none of the three session keys present. -/
def emptySession : Storage :=
  { access_token := none, token_type := none, user_data := none }

/-- The effect of `AsyncStorage.multiRemove(['access_token',
'token_type', 'user_data'])`. -/
def removeSession (_st : Storage) : Storage := emptySession

/-- JavaScript truthiness of an AsyncStorage read result: non-null and
non-empty (used by the guard `accessToken && tokenType && userData`). -/
def truthy : Option String → Bool
  | none => false
  | some s => !s.isEmpty

/-- The guard on line 54 of `login.tsx`: all three stored values are
truthy. -/
def sessionTruthy (st : Storage) : Bool :=
  truthy st.access_token && truthy st.token_type && truthy st.user_data

/-- The `Authorization` header value sent to the verify endpoint. -/
def authHeader (st : Storage) : String :=
  st.token_type.getD "" ++ " " ++ st.access_token.getD ""

/-- Observable actions performed by the handlers, in order. -/
inductive Effect where
  /-- `fetch` of `POST /auth/login` with payload fields
  `username` (trimmed) and `password`. -/
  | fetchLogin (username password : String) : Effect
  /-- `fetch` of `GET /auth/verify-token` with the given
  `Authorization` header value. -/
  | fetchVerify (authorization : String) : Effect
  /-- `Alert.alert(title, msg)` with no button callback. -/
  | alert (title msg : String) : Effect
  /-- `Alert.alert(title, msg, [OK])` whose OK button runs
  `router.replace(target)`: a redirect signalled once acknowledged. -/
  | alertThenRedirect (title msg target : String) : Effect
  /-- `router.replace(target)` issued directly. -/
  | navigate (target : String) : Effect
deriving DecidableEq, Repr

/-- Whether an effect is a network request. -/
def Effect.isNetworkCall : Effect → Bool
  | .fetchLogin _ _ => true
  | .fetchVerify _ => true
  | _ => false

/-- Whether an effect signals a redirect to the authenticated area
(immediately, or once the success alert is acknowledged). -/
def Effect.isRedirect : Effect → Bool
  | .navigate _ => true
  | .alertThenRedirect _ _ _ => true
  | _ => false

/-- Whether a run signals a redirect to the authenticated area. -/
def signalsRedirect (es : List Effect) : Bool :=
  es.any Effect.isRedirect

/-- Outcome of the verify-token fetch, supplied by the environment. -/
inductive VerifyOutcome where
  /-- The request completed; `ok` is `response.ok` (2xx). -/
  | response (ok : Bool) : VerifyOutcome
  /-- The request threw (network error). -/
  | thrown : VerifyOutcome
deriving DecidableEq, Repr

/-- Result of one run of the session bootstrapper. -/
structure BootResult where
  effects : List Effect
  storage' : Storage
  isCheckingAuth' : Bool
deriving DecidableEq, Repr

/-- The bootstrapper falls through to render the login form exactly when
it did not redirect away. -/
def showsLoginForm (r : BootResult) : Bool :=
  !(signalsRedirect r.effects)

/-- The session bootstrapper `checkExistingAuth` (lines 38–84 of
`login.tsx`).  `getOk` is whether `AsyncStorage.multiGet` succeeds
(its failure lands in the outer catch, which just shows the login form);
`verify` is the outcome of the verify-token fetch; `removeOk` is whether
`AsyncStorage.multiRemove` succeeds (its failure is caught by the inner
catch, which redirects).  The `finally` block clears `isCheckingAuth` on
every path. -/
def checkExistingAuth (st : Storage) (getOk : Bool) (verify : VerifyOutcome)
    (removeOk : Bool) : BootResult :=
  if getOk = false then
    { effects := [], storage' := st, isCheckingAuth' := false }
  else if sessionTruthy st then
    match verify with
    | .thrown =>
        { effects := [.fetchVerify (authHeader st), .navigate "/(tabs)"],
          storage' := st, isCheckingAuth' := false }
    | .response ok =>
        if ok then
          { effects := [.fetchVerify (authHeader st), .navigate "/(tabs)"],
            storage' := st, isCheckingAuth' := false }
        else if removeOk then
          { effects := [.fetchVerify (authHeader st)],
            storage' := removeSession st, isCheckingAuth' := false }
        else
          { effects := [.fetchVerify (authHeader st), .navigate "/(tabs)"],
            storage' := st, isCheckingAuth' := false }
  else
    { effects := [], storage' := st, isCheckingAuth' := false }

/-- The fields of the parsed login response body that the code reads;
`none` models an absent (`undefined`) field. -/
structure LoginData where
  access_token : Option String := none
  token_type : Option String := none
  user : Option Json := none
  error : Option String := none

/-- Outcome of the login fetch (including `response.json()`), supplied
by the environment. -/
inductive LoginFetch where
  /-- `fetch` or `response.json()` threw. -/
  | thrown : LoginFetch
  /-- The request completed with `response.ok = ok` and parsed body
  `data`. -/
  | completed (ok : Bool) (data : LoginData) : LoginFetch

/-- Result of one run of the login submitter. -/
structure LoginResult where
  effects : List Effect
  username' : String
  password' : String
  isLoading' : Bool
  storage' : Storage

/-- Validation error message (line 104). -/
def validationMsg : String := "Please enter both username and password"

/-- Generic non-2xx fallback message (line 159). -/
def errFallback : String := "Login failed. Please try again."

/-- Network error message (line 167). -/
def networkErrMsg : String := "Network error. Please check your connection and try again."

/-- Warning shown when the post-login storage write fails (line 155). -/
def storageWarnMsg : String := "Login successful but failed to store session data"

/-- The login submitter `handleLogin` (lines 101–171 of `login.tsx`).
`loading0` is the value of `isLoading` when the handler starts (the
submit control is disabled while loading, so in the running app this is
`false`).  `storageOk` is whether `AsyncStorage.multiSet` succeeds; the
write also throws when a value passed to it is `undefined`, i.e. when a
destructured response field is absent.  The early validation return
happens before `setIsLoading(true)` and outside the `try`/`finally`, so
on that path the loading flag keeps its initial value; every other path
runs the `finally` and ends with it `false`. -/
def handleLogin (username password : String) (loading0 : Bool) (st : Storage)
    (fetchOut : LoginFetch) (storageOk : Bool) : LoginResult :=
  if username.isEmpty || password.isEmpty then
    { effects := [.alert "Error" validationMsg],
      username' := username, password' := password,
      isLoading' := loading0, storage' := st }
  else
    match fetchOut with
    | .thrown =>
        { effects := [.fetchLogin (jsTrim username) password, .alert "Error" networkErrMsg],
          username' := username, password' := password,
          isLoading' := false, storage' := st }
    | .completed ok data =>
        if ok then
          match data.access_token, data.token_type, data.user, storageOk with
          | some a, some t, some u, true =>
              { effects := [.fetchLogin (jsTrim username) password,
                            .alertThenRedirect "Success"
                              ("Welcome back, " ++ jsDisplayOpt (u.lookup "username") ++ "!")
                              "/(tabs)"],
                username' := username, password' := password,
                isLoading' := false,
                storage' := { access_token := some a, token_type := some t,
                              user_data := some u.stringify } }
          | _, _, _, _ =>
              { effects := [.fetchLogin (jsTrim username) password,
                            .alert "Warning" storageWarnMsg],
                username' := username, password' := password,
                isLoading' := false, storage' := st }
        else
          { effects := [.fetchLogin (jsTrim username) password,
                        .alert "Error" (jsOr data.error errFallback)],
            username' := username, password' := "",
            isLoading' := false, storage' := st }

/-- The session-triple invariant of spec §3: all three keys present
together, or none. -/
def allOrNone (st : Storage) : Prop :=
  (st.access_token.isSome ∧ st.token_type.isSome ∧ st.user_data.isSome) ∨
  (st.access_token = none ∧ st.token_type = none ∧ st.user_data = none)

/-- Claim C1, counterexample.  The claim states that a whitespace-only
username (empty after trimming) is rejected locally with no network
call.  At username `" "`, password `"p"` the guard `!username ||
!password` sees a non-empty (truthy) username, so validation passes and
the login POST is issued: the trimmed username is empty, yet the
effects contain a network call. -/
theorem c1_validation_counterexample :
    jsTrim " " = "" ∧
    (handleLogin " " "p" false emptySession LoginFetch.thrown true).effects
      = [Effect.fetchLogin "" "p", Effect.alert "Error" networkErrMsg] ∧
    ¬ ((handleLogin " " "p" false emptySession LoginFetch.thrown true).effects.any
         Effect.isNetworkCall = false) := by
  decide

/-- Claim C1, amended.  Validation tests the raw (untrimmed) inputs for
JavaScript truthiness: submission is rejected locally — a single error
alert, no network call, storage and loading untouched — exactly when the
raw username or the raw password is the empty string; otherwise the
login request is sent (with the username trimmed only in the payload). -/
theorem c1_validation_amended (u p : String) (l : Bool) (st : Storage)
    (f : LoginFetch) (sOk : Bool) :
    ((u.isEmpty || p.isEmpty) = true →
        (handleLogin u p l st f sOk).effects = [Effect.alert "Error" validationMsg] ∧
        (handleLogin u p l st f sOk).effects.any Effect.isNetworkCall = false ∧
        (handleLogin u p l st f sOk).storage' = st ∧
        (handleLogin u p l st f sOk).isLoading' = l) ∧
    ((u.isEmpty || p.isEmpty) = false →
        (handleLogin u p l st f sOk).effects.any Effect.isNetworkCall = true) := by
  constructor
  · intro h
    simp [handleLogin, h, Effect.isNetworkCall]
  · intro h
    rcases f with _ | ⟨ok, d⟩
    · simp [handleLogin, h, Effect.isNetworkCall]
    · rcases d with ⟨a, t, uu, e⟩
      cases ok <;> cases a <;> cases t <;> cases uu <;> cases sOk <;>
        simp [handleLogin, h, Effect.isNetworkCall]

/-- Claim C1, witness for the amended statement at username `""`,
password `"p"`. -/
theorem c1_validation_amended_witness :
    (handleLogin "" "p" false emptySession LoginFetch.thrown true).effects
      = [Effect.alert "Error" validationMsg] ∧
    (handleLogin "" "p" false emptySession LoginFetch.thrown true).storage' = emptySession :=
  ⟨((c1_validation_amended "" "p" false emptySession LoginFetch.thrown true).1 (by decide)).1,
   ((c1_validation_amended "" "p" false emptySession LoginFetch.thrown true).1 (by decide)).2.2.1⟩

/-- Claim C2: with all three stored values present and non-empty (the
condition under which the verify request is issued at all), a verify
fetch that throws produces exactly the same run as a 2xx verify
response: a redirect is signalled and the stored keys are unchanged. -/
theorem c2_verify_throw_redirects (st : Storage) (rOk : Bool)
    (h : sessionTruthy st = true) :
    checkExistingAuth st true VerifyOutcome.thrown rOk
        = checkExistingAuth st true (VerifyOutcome.response true) rOk ∧
    signalsRedirect (checkExistingAuth st true VerifyOutcome.thrown rOk).effects = true ∧
    (checkExistingAuth st true VerifyOutcome.thrown rOk).storage' = st := by
  simp [checkExistingAuth, h, signalsRedirect, Effect.isRedirect]

/-- Claim C2, witness at a concrete stored session. -/
theorem c2_verify_throw_redirects_witness :
    signalsRedirect (checkExistingAuth
        { access_token := some "a", token_type := some "b", user_data := some "c" }
        true VerifyOutcome.thrown true).effects = true ∧
    (checkExistingAuth
        { access_token := some "a", token_type := some "b", user_data := some "c" }
        true VerifyOutcome.thrown true).storage'
      = { access_token := some "a", token_type := some "b", user_data := some "c" } :=
  (c2_verify_throw_redirects
    { access_token := some "a", token_type := some "b", user_data := some "c" }
    true (by decide)).2

/-- Claim C3: on a 2xx login response carrying `access_token="t1"`,
`token_type="Bearer"`, `user={"username":"alice"}`, the three storage
keys are set to `"t1"`, `"Bearer"` and the JSON serialization of the
user object, and the run reports a success alert whose message contains
the username and whose acknowledgement signals the redirect to
`/(tabs)`. -/
theorem c3_login_success_persists :
    (handleLogin "alice" "pw" false emptySession
        (LoginFetch.completed true
          { access_token := some "t1", token_type := some "Bearer",
            user := some (Json.obj [("username", Json.str "alice")]) }) true).storage'
      = { access_token := some "t1", token_type := some "Bearer",
          user_data := some "\x7b\"username\":\"alice\"\x7d" } ∧
    (handleLogin "alice" "pw" false emptySession
        (LoginFetch.completed true
          { access_token := some "t1", token_type := some "Bearer",
            user := some (Json.obj [("username", Json.str "alice")]) }) true).effects
      = [Effect.fetchLogin "alice" "pw",
         Effect.alertThenRedirect "Success" ("Welcome back, " ++ "alice" ++ "!") "/(tabs)"] := by
  decide

/-- Claim C4, counterexample.  The claim states the displayed error
equals the body's `error` field whenever that field is present; but the
code selects the message with JavaScript `||`, so a present-but-empty
`error` field is falsy and the generic fallback is shown instead of the
field's value. -/
theorem c4_error_display_counterexample :
    ({ error := some "" } : LoginData).error = some "" ∧
    (handleLogin "u" "p" false emptySession
        (LoginFetch.completed false { error := some "" }) true).effects
      = [Effect.fetchLogin "u" "p", Effect.alert "Error" errFallback] ∧
    errFallback ≠ "" := by
  decide

/-- Claim C4, amended.  For every non-2xx login response, the displayed
error equals the body's `error` field when that field is present and
non-empty, and the generic fallback otherwise; the password field is
cleared, the username field is unchanged, and no storage key is
written. -/
theorem c4_error_display_amended (u p : String) (l : Bool) (st : Storage)
    (d : LoginData) (sOk : Bool)
    (hu : u.isEmpty = false) (hp : p.isEmpty = false) :
    (handleLogin u p l st (LoginFetch.completed false d) sOk).effects
        = [Effect.fetchLogin (jsTrim u) p,
           Effect.alert "Error"
             (match d.error with
              | some e => if e.isEmpty then errFallback else e
              | none => errFallback)] ∧
    (handleLogin u p l st (LoginFetch.completed false d) sOk).password' = "" ∧
    (handleLogin u p l st (LoginFetch.completed false d) sOk).username' = u ∧
    (handleLogin u p l st (LoginFetch.completed false d) sOk).storage' = st := by
  rcases d with ⟨a, t, uu, e⟩
  cases e <;> simp [handleLogin, hu, hp, jsOr]

/-- Claim C4, witness at a present non-empty error field. -/
theorem c4_error_display_amended_witness :
    (handleLogin "u" "p" false emptySession
        (LoginFetch.completed false { error := some "bad credentials" }) true).effects
      = [Effect.fetchLogin (jsTrim "u") "p", Effect.alert "Error" "bad credentials"] ∧
    (handleLogin "u" "p" false emptySession
        (LoginFetch.completed false { error := some "bad credentials" }) true).password'
      = "" :=
  ⟨(c4_error_display_amended "u" "p" false emptySession
      { error := some "bad credentials" } true (by decide) (by decide)).1,
   (c4_error_display_amended "u" "p" false emptySession
      { error := some "bad credentials" } true (by decide) (by decide)).2.1⟩

/-- Claim C5: with all three stored values present and non-empty, a 2xx
verify response makes the bootstrapper signal the redirect, and the
login form is never shown. -/
theorem c5_verify_ok_redirects (st : Storage) (rOk : Bool)
    (h : sessionTruthy st = true) :
    signalsRedirect (checkExistingAuth st true (VerifyOutcome.response true) rOk).effects
        = true ∧
    showsLoginForm (checkExistingAuth st true (VerifyOutcome.response true) rOk) = false := by
  simp [checkExistingAuth, h, signalsRedirect, showsLoginForm, Effect.isRedirect]

/-- Claim C5, witness at a concrete stored session. -/
theorem c5_verify_ok_redirects_witness :
    signalsRedirect (checkExistingAuth
        { access_token := some "a", token_type := some "b", user_data := some "c" }
        true (VerifyOutcome.response true) true).effects = true ∧
    showsLoginForm (checkExistingAuth
        { access_token := some "a", token_type := some "b", user_data := some "c" }
        true (VerifyOutcome.response true) true) = false :=
  c5_verify_ok_redirects
    { access_token := some "a", token_type := some "b", user_data := some "c" }
    true (by decide)

/-- Claim C6: with all three stored values present and non-empty and a
non-2xx verify response, the bootstrapper deletes all three stored keys
and falls through to the login form without signalling a redirect (the
best-effort `multiRemove` is assumed to succeed, as the spec's
best-effort wording allows). -/
theorem c6_verify_reject_clears (st : Storage) (h : sessionTruthy st = true) :
    (checkExistingAuth st true (VerifyOutcome.response false) true).storage'
        = emptySession ∧
    signalsRedirect (checkExistingAuth st true (VerifyOutcome.response false) true).effects
        = false ∧
    showsLoginForm (checkExistingAuth st true (VerifyOutcome.response false) true) = true := by
  simp [checkExistingAuth, h, removeSession, signalsRedirect, showsLoginForm,
    Effect.isRedirect]

/-- Claim C6, witness at a concrete stored session. -/
theorem c6_verify_reject_clears_witness :
    (checkExistingAuth
        { access_token := some "a", token_type := some "b", user_data := some "c" }
        true (VerifyOutcome.response false) true).storage' = emptySession ∧
    signalsRedirect (checkExistingAuth
        { access_token := some "a", token_type := some "b", user_data := some "c" }
        true (VerifyOutcome.response false) true).effects = false ∧
    showsLoginForm (checkExistingAuth
        { access_token := some "a", token_type := some "b", user_data := some "c" }
        true (VerifyOutcome.response false) true) = true :=
  c6_verify_reject_clears
    { access_token := some "a", token_type := some "b", user_data := some "c" }
    (by decide)

/-- Claim C7: started when not busy (the submit control is disabled
while loading, so the handler only ever runs with the flag down), every
exit path of the login submitter — validation failure, 2xx success,
non-2xx failure, storage failure, network throw — ends with the loading
flag false. -/
theorem c7_loading_cleared (u p : String) (st : Storage) (f : LoginFetch)
    (sOk : Bool) :
    (handleLogin u p false st f sOk).isLoading' = false := by
  by_cases h : (u.isEmpty || p.isEmpty) = true
  · simp [handleLogin, h]
  · rcases f with _ | ⟨ok, d⟩
    · simp [handleLogin, h]
    · rcases d with ⟨a, t, uu, e⟩
      cases ok <;> cases a <;> cases t <;> cases uu <;> cases sOk <;>
        simp [handleLogin, h]

/-- Claim C8: every storage mutation either sets the three session keys
together (`multiSet` on success) or removes them together
(`multiRemove` on a rejected token), so both handlers preserve the
all-or-none invariant of the session triple from any initial state
satisfying it, for every environment outcome. -/
theorem c8_session_all_or_none (st : Storage) (g rOk l sOk : Bool)
    (v : VerifyOutcome) (u p : String) (f : LoginFetch)
    (h : allOrNone st) :
    allOrNone (checkExistingAuth st g v rOk).storage' ∧
    allOrNone (handleLogin u p l st f sOk).storage' := by
  have hboot : (checkExistingAuth st g v rOk).storage' = st ∨
      (checkExistingAuth st g v rOk).storage' = emptySession := by
    rcases v with ⟨ok⟩ | _ <;> cases g <;> cases rOk <;>
      by_cases hs : sessionTruthy st = true <;> (try cases ok) <;>
        simp [checkExistingAuth, hs, removeSession]
  have hlog : (handleLogin u p l st f sOk).storage' = st ∨
      ∃ a t ud, (handleLogin u p l st f sOk).storage'
        = { access_token := some a, token_type := some t, user_data := some ud } := by
    by_cases hv : (u.isEmpty || p.isEmpty) = true
    · simp [handleLogin, hv]
    · rcases f with _ | ⟨ok, d⟩
      · simp [handleLogin, hv]
      · rcases d with ⟨a, t, uu, e⟩
        cases ok <;> cases a <;> cases t <;> cases uu <;> cases sOk <;>
          simp [handleLogin, hv]
  refine ⟨?_, ?_⟩
  · rcases hboot with h1 | h1 <;> rw [h1]
    · exact h
    · exact Or.inr ⟨rfl, rfl, rfl⟩
  · rcases hlog with h1 | ⟨a, t, ud, h1⟩ <;> rw [h1]
    · exact h
    · exact Or.inl ⟨rfl, rfl, rfl⟩

/-- Claim C8, witness from the empty session state. -/
theorem c8_session_all_or_none_witness :
    allOrNone (checkExistingAuth emptySession true (VerifyOutcome.response true)
        true).storage' ∧
    allOrNone (handleLogin "u" "p" false emptySession LoginFetch.thrown true).storage' :=
  c8_session_all_or_none emptySession true true false true (VerifyOutcome.response true)
    "u" "p" LoginFetch.thrown (Or.inr ⟨rfl, rfl, rfl⟩)

/-- Claim C9: with an always-2xx verify endpoint, a bootstrapper run
leaves storage unchanged, so a second run from the resulting state is
identical to the first: the same redirect signal both times. -/
theorem c9_bootstrap_idempotent (st : Storage) (rOk1 rOk2 : Bool) :
    (checkExistingAuth st true (VerifyOutcome.response true) rOk1).storage' = st ∧
    checkExistingAuth (checkExistingAuth st true (VerifyOutcome.response true) rOk1).storage'
        true (VerifyOutcome.response true) rOk2
      = checkExistingAuth st true (VerifyOutcome.response true) rOk1 := by
  by_cases hs : sessionTruthy st = true <;> simp [checkExistingAuth, hs]

/-- Claim C10: when the login request returns 2xx but the `multiSet`
write throws, the run reports only the storage warning after the fetch,
signals no redirect, and leaves storage unchanged: the user stays on the
login form despite a successful authentication. -/
theorem c10_storage_fail_no_redirect (u p : String) (l : Bool) (st : Storage)
    (d : LoginData) (hu : u.isEmpty = false) (hp : p.isEmpty = false) :
    (handleLogin u p l st (LoginFetch.completed true d) false).effects
        = [Effect.fetchLogin (jsTrim u) p, Effect.alert "Warning" storageWarnMsg] ∧
    signalsRedirect (handleLogin u p l st (LoginFetch.completed true d) false).effects
        = false ∧
    (handleLogin u p l st (LoginFetch.completed true d) false).storage' = st := by
  rcases d with ⟨a, t, uu, e⟩
  cases a <;> cases t <;> cases uu <;>
    simp [handleLogin, hu, hp, signalsRedirect, Effect.isRedirect]

/-- Claim C10, witness at a fully-populated 2xx response body. -/
theorem c10_storage_fail_no_redirect_witness :
    (handleLogin "u" "p" false emptySession
        (LoginFetch.completed true
          { access_token := some "t1", token_type := some "Bearer",
            user := some (Json.obj [("username", Json.str "alice")]) }) false).effects
      = [Effect.fetchLogin (jsTrim "u") "p", Effect.alert "Warning" storageWarnMsg] ∧
    signalsRedirect (handleLogin "u" "p" false emptySession
        (LoginFetch.completed true
          { access_token := some "t1", token_type := some "Bearer",
            user := some (Json.obj [("username", Json.str "alice")]) }) false).effects
      = false ∧
    (handleLogin "u" "p" false emptySession
        (LoginFetch.completed true
          { access_token := some "t1", token_type := some "Bearer",
            user := some (Json.obj [("username", Json.str "alice")]) }) false).storage'
      = emptySession :=
  c10_storage_fail_no_redirect "u" "p" false emptySession
    { access_token := some "t1", token_type := some "Bearer",
      user := some (Json.obj [("username", Json.str "alice")]) }
    (by decide) (by decide)

end Heartify
